import Mathlib

/-!
Verification of the retry-with-exponential-backoff utility
(`vendor/deno.land/std@0.190.0/async/retry.ts`).

The embedding is a shallow one:

* JavaScript numbers are modelled as rationals (`ℚ`), the attempt counter
  as an integer (`Int`), so that the loop bound `i < maxAttempts` with a
  non-positive `maxAttempts` runs zero iterations (`Int.toNat`).
* The caller-supplied operation is modelled as a function
  `op : Nat → Except E T` giving the outcome of its `i`-th invocation
  (0-indexed); `Math.random()` is modelled as a stream `rand : Nat → ℚ`
  whose `i`-th value is consumed by the backoff recomputation that follows
  the failure of attempt `i`.
* The observable behaviour of one call is a `RetryTrace`: the final
  result (success value, thrown `RetryError`, or a failed `assert` on the
  options), the number of times the operation was invoked, and the list of
  `setTimeout` waits performed, in order.
-/

/-- The optional options record (`RetryOptions` interface): every field may
be omitted.  Field order follows the source: `multiplier`, `maxTimeout`,
`maxAttempts`, `minTimeout`. -/
structure RetryOptions where
  multiplier : Option ℚ
  maxTimeout : Option ℚ
  maxAttempts : Option Int
  minTimeout : Option ℚ
  deriving Repr, DecidableEq

/-- Options with every field present (`Required<RetryOptions>`). -/
structure RequiredRetryOptions where
  multiplier : ℚ
  maxTimeout : ℚ
  maxAttempts : Int
  minTimeout : ℚ
  deriving Repr, DecidableEq

/-- `defaultRetryOptions` from the source. -/
def defaultRetryOptions : RequiredRetryOptions :=
  ⟨2, 60000, 5, 1000⟩

/-- The spread `{ ...defaultRetryOptions, ...opts }`: a field supplied by the
caller overrides the default, an omitted field keeps it.  `none` for `opts`
models an absent second argument. -/
def mergeOptions (opts : Option RetryOptions) : RequiredRetryOptions :=
  match opts with
  | none => defaultRetryOptions
  | some o =>
      ⟨o.multiplier.getD defaultRetryOptions.multiplier,
       o.maxTimeout.getD defaultRetryOptions.maxTimeout,
       o.maxAttempts.getD defaultRetryOptions.maxAttempts,
       o.minTimeout.getD defaultRetryOptions.minTimeout⟩

/-- `_exponentialBackoffWithJitter(cap, base, attempt, multiplier)` from the
source, with the internal `Math.random()` value passed explicitly as `r`:
`r * min(cap, base * multiplier ** attempt)`. -/
def _exponentialBackoffWithJitter (cap base : ℚ) (attempt : Nat)
    (multiplier r : ℚ) : ℚ :=
  r * min cap (base * multiplier ^ attempt)

/-- How one call to `retry` ends: a success value, a thrown
`RetryError(cause, count)` (the `cause` is `none` when the `error` variable
was never assigned), or a failed `assert` on the options, carrying the
assertion message. -/
inductive RetryOutcome (E T : Type) where
  | ok (value : T)
  | retryError (cause : Option E) (count : Int)
  | assertionError (msg : String)
  deriving Repr, DecidableEq

/-- `true` exactly on the precondition (failed `assert`) outcome. -/
def RetryOutcome.isConfigError {E T : Type} : RetryOutcome E T → Bool
  | .assertionError _ => true
  | _ => false

/-- The observable behaviour of one call to `retry`: its outcome, how many
times the operation was invoked, and the waits performed (in order). -/
structure RetryTrace (E T : Type) where
  result : RetryOutcome E T
  invocations : Nat
  waits : List ℚ
  deriving Repr, DecidableEq

/-- Intermediate state returned by the retry loop: the success value if an
attempt succeeded, the last recorded error, the number of invocations made,
and the waits performed. -/
structure LoopResult (E T : Type) where
  value : Option T
  error : Option E
  invocations : Nat
  waits : List ℚ
  deriving Repr, DecidableEq

/-- The `for (let i = 0; i < maxAttempts; i++)` loop of `retry`.  `fuel` is
the number of remaining iterations, `i` the current attempt index,
`timeout` the current value of the `timeout` variable and `error` the last
recorded failure.  On a failed attempt the loop waits `timeout`
milliseconds, recomputes `timeout` with `_exponentialBackoffWithJitter`
(consuming `rand i`), records the error and continues. -/
def retryLoop {E T : Type} (op : Nat → Except E T) (rand : Nat → ℚ)
    (cap base multiplier : ℚ) :
    Nat → Nat → ℚ → Option E → LoopResult E T
  | 0, _, _, error => ⟨none, error, 0, []⟩
  | fuel + 1, i, timeout, error =>
      match op i with
      | Except.ok v => ⟨some v, error, 1, []⟩
      | Except.error err =>
          let rest := retryLoop op rand cap base multiplier fuel (i + 1)
            (_exponentialBackoffWithJitter cap base i multiplier (rand i))
            (some err)
          ⟨rest.value, rest.error, rest.invocations + 1, timeout :: rest.waits⟩

/-- The part of `retry` that follows the two `assert`s: the loop runs with
`timeout` initialised to `minTimeout` and `error` unassigned (`i` starts at
`0`, and `i < maxAttempts` runs `maxAttempts.toNat` iterations); a
successful attempt returns its value, otherwise the call throws
`RetryError(error, maxAttempts)`. -/
def runAttempts {E T : Type} (op : Nat → Except E T) (rand : Nat → ℚ)
    (options : RequiredRetryOptions) : RetryTrace E T :=
  let r := retryLoop op rand options.maxTimeout options.minTimeout
    options.multiplier options.maxAttempts.toNat 0 options.minTimeout none
  match r.value with
  | some v => ⟨RetryOutcome.ok v, r.invocations, r.waits⟩
  | none => ⟨RetryOutcome.retryError r.error options.maxAttempts,
             r.invocations, r.waits⟩

/-- `retry(fn, opts?)` from the source.  Options are merged with the
defaults, the two `assert`s are checked (a failed `assert` throws before
any attempt), and then the attempt loop runs. -/
def retry {E T : Type} (op : Nat → Except E T) (rand : Nat → ℚ)
    (opts : Option RetryOptions) : RetryTrace E T :=
  let options := mergeOptions opts
  if options.maxTimeout < 0 then
    ⟨RetryOutcome.assertionError "maxTimeout is less than 0", 0, []⟩
  else if options.maxTimeout < options.minTimeout then
    ⟨RetryOutcome.assertionError "minTimeout is greater than maxTimeout", 0, []⟩
  else
    runAttempts op rand options

/-! ## General lemmas about the attempt loop -/

/-- Unfolding: with no fuel the loop ends with the carried error. -/
theorem retryLoop_zero {E T : Type} (op : Nat → Except E T) (rand : Nat → ℚ)
    (cap base multiplier : ℚ) (i : Nat) (timeout : ℚ) (error : Option E) :
    retryLoop op rand cap base multiplier 0 i timeout error =
      ⟨none, error, 0, []⟩ := rfl

/-- Unfolding: a successful attempt returns at once with one invocation and
no wait. -/
theorem retryLoop_step_ok {E T : Type} (op : Nat → Except E T)
    (rand : Nat → ℚ) (cap base multiplier : ℚ) (fuel i : Nat) (timeout : ℚ)
    (error : Option E) (v : T) (hop : op i = Except.ok v) :
    retryLoop op rand cap base multiplier (fuel + 1) i timeout error =
      ⟨some v, error, 1, []⟩ := by
  simp [retryLoop, hop]

/-- Unfolding: a failed attempt waits `timeout`, recomputes the timeout
with the jittered backoff at the current index, records the error, and
continues. -/
theorem retryLoop_step_error {E T : Type} (op : Nat → Except E T)
    (rand : Nat → ℚ) (cap base multiplier : ℚ) (fuel i : Nat) (timeout : ℚ)
    (error : Option E) (err : E) (hop : op i = Except.error err) :
    retryLoop op rand cap base multiplier (fuel + 1) i timeout error =
      ⟨(retryLoop op rand cap base multiplier fuel (i + 1)
          (_exponentialBackoffWithJitter cap base i multiplier (rand i))
          (some err)).value,
       (retryLoop op rand cap base multiplier fuel (i + 1)
          (_exponentialBackoffWithJitter cap base i multiplier (rand i))
          (some err)).error,
       (retryLoop op rand cap base multiplier fuel (i + 1)
          (_exponentialBackoffWithJitter cap base i multiplier (rand i))
          (some err)).invocations + 1,
       timeout :: (retryLoop op rand cap base multiplier fuel (i + 1)
          (_exponentialBackoffWithJitter cap base i multiplier (rand i))
          (some err)).waits⟩ := by
  simp [retryLoop, hop]

/-- The loop makes at most `fuel` invocations. -/
theorem retryLoop_invocations_le {E T : Type} (op : Nat → Except E T)
    (rand : Nat → ℚ) (cap base multiplier : ℚ) :
    ∀ (fuel i : Nat) (timeout : ℚ) (error : Option E),
      (retryLoop op rand cap base multiplier fuel i timeout error).invocations
        ≤ fuel := by
  intro fuel
  induction fuel with
  | zero => intro i t e; simp [retryLoop_zero]
  | succ n ih =>
      intro i t e
      cases hop : op i with
      | ok v => simp [retryLoop_step_ok op rand cap base multiplier n i t e v hop]
      | error err =>
          rw [retryLoop_step_error op rand cap base multiplier n i t e err hop]
          exact Nat.succ_le_succ (ih (i + 1) _ _)

/-- With at least one iteration of fuel the loop invokes the operation at
least once. -/
theorem retryLoop_invocations_pos {E T : Type} (op : Nat → Except E T)
    (rand : Nat → ℚ) (cap base multiplier : ℚ) (fuel i : Nat) (timeout : ℚ)
    (error : Option E) :
    1 ≤ (retryLoop op rand cap base multiplier (fuel + 1) i timeout
      error).invocations := by
  cases hop : op i with
  | ok v => simp [retryLoop_step_ok op rand cap base multiplier fuel i timeout error v hop]
  | error err =>
      rw [retryLoop_step_error op rand cap base multiplier fuel i timeout error err hop]
      simp

/-- If the attempts at offsets `0, …, k-1` from `i` fail and the attempt at
offset `k` succeeds with `v` (with `k < fuel`), the loop yields `v`, makes
exactly `k + 1` invocations, and performs exactly `k` waits. -/
theorem retryLoop_succeedAt {E T : Type} (op : Nat → Except E T)
    (rand : Nat → ℚ) (cap base multiplier : ℚ) (ef : Nat → E) (v : T) :
    ∀ (k fuel i : Nat) (timeout : ℚ) (error : Option E),
      k < fuel →
      (∀ j, j < k → op (i + j) = Except.error (ef (i + j))) →
      op (i + k) = Except.ok v →
      (retryLoop op rand cap base multiplier fuel i timeout error).value
          = some v ∧
      (retryLoop op rand cap base multiplier fuel i timeout error).invocations
          = k + 1 ∧
      (retryLoop op rand cap base multiplier fuel i timeout
          error).waits.length = k := by
  intro k
  induction k with
  | zero =>
      intro fuel i t e hk hfail hsucc
      obtain ⟨f, rfl⟩ : ∃ f, fuel = f + 1 := ⟨fuel - 1, by omega⟩
      have h0 : op i = Except.ok v := by simpa using hsucc
      simp [retryLoop_step_ok op rand cap base multiplier f i t e v h0]
  | succ k ih =>
      intro fuel i t e hk hfail hsucc
      obtain ⟨f, rfl⟩ : ∃ f, fuel = f + 1 := ⟨fuel - 1, by omega⟩
      have h0 : op i = Except.error (ef i) := by
        simpa using hfail 0 (Nat.succ_pos k)
      have hrest := ih f (i + 1)
        (_exponentialBackoffWithJitter cap base i multiplier (rand i))
        (some (ef i)) (by omega)
        (fun j hj => by
          have hj1 := hfail (j + 1) (by omega)
          have heq : i + (j + 1) = i + 1 + j := by omega
          rwa [heq] at hj1)
        (by
          have heq : i + (k + 1) = i + 1 + k := by omega
          rwa [heq] at hsucc)
      rw [retryLoop_step_error op rand cap base multiplier f i t e (ef i) h0]
      exact ⟨by simp [hrest.1], by simp [hrest.2.1], by simp [hrest.2.2]⟩

/-- If every attempt within the fuel fails, the loop returns no value, the
recorded error is the failure of the last attempt, every iteration invokes
the operation, and the waits are the initial `timeout` followed by the
successive jittered backoffs (the backoff computed after the *last*
failure is never waited on: it is recomputed and then the loop exits). -/
theorem retryLoop_allFail {E T : Type} (op : Nat → Except E T)
    (rand : Nat → ℚ) (cap base multiplier : ℚ) (ef : Nat → E) :
    ∀ (fuel i : Nat) (timeout : ℚ) (error : Option E),
      (∀ j, j < fuel + 1 → op (i + j) = Except.error (ef (i + j))) →
      retryLoop op rand cap base multiplier (fuel + 1) i timeout error =
        ⟨none, some (ef (i + fuel)), fuel + 1,
         timeout :: (List.range fuel).map (fun j =>
           _exponentialBackoffWithJitter cap base (i + j) multiplier
             (rand (i + j)))⟩ := by
  intro fuel
  induction fuel with
  | zero =>
      intro i t e h
      have h0 : op i = Except.error (ef i) := by simpa using h 0 Nat.one_pos
      rw [retryLoop_step_error op rand cap base multiplier 0 i t e (ef i) h0]
      simp [retryLoop_zero]
  | succ n ih =>
      intro i t e h
      have h0 : op i = Except.error (ef i) := by simpa using h 0 (by omega)
      have hrest := ih (i + 1)
        (_exponentialBackoffWithJitter cap base i multiplier (rand i))
        (some (ef i))
        (fun j hj => by
          have hj1 := h (j + 1) (by omega)
          have heq : i + (j + 1) = i + 1 + j := by omega
          rwa [heq] at hj1)
      rw [retryLoop_step_error op rand cap base multiplier (n + 1) i t e
        (ef i) h0, hrest]
      have hef : i + 1 + n = i + (n + 1) := by omega
      have hlist : (List.range (n + 1)).map (fun j =>
          _exponentialBackoffWithJitter cap base (i + j) multiplier
            (rand (i + j))) =
          _exponentialBackoffWithJitter cap base i multiplier (rand i) ::
          (List.range n).map (fun j =>
            _exponentialBackoffWithJitter cap base (i + 1 + j) multiplier
              (rand (i + 1 + j))) := by
        rw [List.range_succ_eq_map, List.map_cons, List.map_map]
        refine congrArg₂ _ (by simp) ?_
        refine List.map_congr_left ?_
        intro a _
        have heq : i + 1 + a = i + (a + 1) := by omega
        simp [Function.comp, heq, Nat.succ_eq_add_one]
      rw [hef]
      simp [hlist]

/-! ## Lemmas about `retry` and `runAttempts` -/

/-- When both `assert`s hold, `retry` just runs the attempt loop on the
merged options. -/
theorem retry_valid_eq {E T : Type} (op : Nat → Except E T) (rand : Nat → ℚ)
    (opts : Option RetryOptions)
    (h1 : 0 ≤ (mergeOptions opts).maxTimeout)
    (h2 : (mergeOptions opts).minTimeout ≤ (mergeOptions opts).maxTimeout) :
    retry op rand opts = runAttempts op rand (mergeOptions opts) := by
  simp only [retry]
  rw [if_neg (not_lt.mpr h1), if_neg (not_lt.mpr h2)]

/-- If the loop produced a value, the call returns it with the loop's
invocation count and waits. -/
theorem runAttempts_of_value_some {E T : Type} (op : Nat → Except E T)
    (rand : Nat → ℚ) (options : RequiredRetryOptions) (v : T)
    (h : (retryLoop op rand options.maxTimeout options.minTimeout
        options.multiplier options.maxAttempts.toNat 0
        options.minTimeout none).value = some v) :
    runAttempts op rand options =
      ⟨RetryOutcome.ok v,
       (retryLoop op rand options.maxTimeout options.minTimeout
          options.multiplier options.maxAttempts.toNat 0
          options.minTimeout none).invocations,
       (retryLoop op rand options.maxTimeout options.minTimeout
          options.multiplier options.maxAttempts.toNat 0
          options.minTimeout none).waits⟩ := by
  simp only [runAttempts]
  rw [h]

/-- If no attempt produced a value, the call throws
`RetryError(error, maxAttempts)` with the loop's invocation count and
waits. -/
theorem runAttempts_of_value_none {E T : Type} (op : Nat → Except E T)
    (rand : Nat → ℚ) (options : RequiredRetryOptions)
    (h : (retryLoop op rand options.maxTimeout options.minTimeout
        options.multiplier options.maxAttempts.toNat 0
        options.minTimeout none).value = none) :
    runAttempts op rand options =
      ⟨RetryOutcome.retryError
         (retryLoop op rand options.maxTimeout options.minTimeout
            options.multiplier options.maxAttempts.toNat 0
            options.minTimeout none).error options.maxAttempts,
       (retryLoop op rand options.maxTimeout options.minTimeout
          options.multiplier options.maxAttempts.toNat 0
          options.minTimeout none).invocations,
       (retryLoop op rand options.maxTimeout options.minTimeout
          options.multiplier options.maxAttempts.toNat 0
          options.minTimeout none).waits⟩ := by
  simp only [runAttempts]
  rw [h]

/-- Whatever the loop did, the call reports the loop's invocation count. -/
theorem runAttempts_invocations {E T : Type} (op : Nat → Except E T)
    (rand : Nat → ℚ) (options : RequiredRetryOptions) :
    (runAttempts op rand options).invocations =
      (retryLoop op rand options.maxTimeout options.minTimeout
        options.multiplier options.maxAttempts.toNat 0
        options.minTimeout none).invocations := by
  simp only [runAttempts]
  cases h : (retryLoop op rand options.maxTimeout options.minTimeout
      options.multiplier options.maxAttempts.toNat 0
      options.minTimeout none).value <;> rfl

/-- Whatever the loop did, the call reports the loop's waits. -/
theorem runAttempts_waits {E T : Type} (op : Nat → Except E T)
    (rand : Nat → ℚ) (options : RequiredRetryOptions) :
    (runAttempts op rand options).waits =
      (retryLoop op rand options.maxTimeout options.minTimeout
        options.multiplier options.maxAttempts.toNat 0
        options.minTimeout none).waits := by
  simp only [runAttempts]
  cases h : (retryLoop op rand options.maxTimeout options.minTimeout
      options.multiplier options.maxAttempts.toNat 0
      options.minTimeout none).value <;> rfl

/-- Once validation has passed, the outcome is a success or a
`RetryError`, never a precondition failure. -/
theorem runAttempts_not_configError {E T : Type} (op : Nat → Except E T)
    (rand : Nat → ℚ) (options : RequiredRetryOptions) :
    (runAttempts op rand options).result.isConfigError = false := by
  simp only [runAttempts]
  cases h : (retryLoop op rand options.maxTimeout options.minTimeout
      options.multiplier options.maxAttempts.toNat 0
      options.minTimeout none).value <;> rfl

/-! ## The claims -/

/-- Claim C1: if the first `k` attempts of the operation fail and attempt
`k` (0-indexed, `k < maxAttempts`) succeeds, then `retry` returns exactly
the value produced by that successful attempt, and the operation is
invoked exactly `k + 1` times in total. -/
theorem C1_success_at_k {E T : Type} (op : Nat → Except E T) (rand : Nat → ℚ)
    (opts : Option RetryOptions) (ef : Nat → E) (k : Nat) (v : T)
    (h1 : 0 ≤ (mergeOptions opts).maxTimeout)
    (h2 : (mergeOptions opts).minTimeout ≤ (mergeOptions opts).maxTimeout)
    (hk : (k : Int) < (mergeOptions opts).maxAttempts)
    (hfail : ∀ j, j < k → op j = Except.error (ef j))
    (hsucc : op k = Except.ok v) :
    (retry op rand opts).result = RetryOutcome.ok v ∧
    (retry op rand opts).invocations = k + 1 := by
  rw [retry_valid_eq op rand opts h1 h2]
  have hk' : k < (mergeOptions opts).maxAttempts.toNat := by omega
  have h := retryLoop_succeedAt op rand (mergeOptions opts).maxTimeout
    (mergeOptions opts).minTimeout (mergeOptions opts).multiplier ef v k
    (mergeOptions opts).maxAttempts.toNat 0 (mergeOptions opts).minTimeout
    none hk' (fun j hj => by simpa using hfail j hj) (by simpa using hsucc)
  rw [runAttempts_of_value_some op rand (mergeOptions opts) v h.1]
  exact ⟨rfl, h.2.1⟩

/-- Witness for C1: with the default options, an operation failing on its
first invocation and succeeding on its second returns the success value
after exactly two invocations. -/
theorem C1_success_at_k_witness :
    ((0 : ℚ) ≤ (mergeOptions none).maxTimeout ∧
     (mergeOptions none).minTimeout ≤ (mergeOptions none).maxTimeout ∧
     ((1 : Nat) : Int) < (mergeOptions none).maxAttempts) ∧
    (retry (fun j => if j = 0 then (Except.error 7 : Except Nat Nat)
        else Except.ok 42) (fun _ => 0) none).result = RetryOutcome.ok 42 ∧
    (retry (fun j => if j = 0 then (Except.error 7 : Except Nat Nat)
        else Except.ok 42) (fun _ => 0) none).invocations = 1 + 1 :=
  ⟨⟨by decide, by decide, by decide⟩,
   C1_success_at_k
     (fun j => if j = 0 then (Except.error 7 : Except Nat Nat)
       else Except.ok 42)
     (fun _ => 0) none (fun _ => 7) 1 42 (by decide) (by decide) (by decide)
     (fun j hj => by
       have hj0 : j = 0 := by omega
       simp [hj0])
     rfl⟩

/-- Claim C2: if every one of the `maxAttempts` invocations fails, `retry`
fails with a `RetryError` whose cause is the failure of the last
(`maxAttempts`-th) attempt and whose count is `maxAttempts`; no
intermediate failure is surfaced. -/
theorem C2_exhaustion {E T : Type} (op : Nat → Except E T) (rand : Nat → ℚ)
    (opts : Option RetryOptions) (ef : Nat → E)
    (h1 : 0 ≤ (mergeOptions opts).maxTimeout)
    (h2 : (mergeOptions opts).minTimeout ≤ (mergeOptions opts).maxTimeout)
    (hm : 1 ≤ (mergeOptions opts).maxAttempts)
    (hfail : ∀ j : Nat, (j : Int) < (mergeOptions opts).maxAttempts →
      op j = Except.error (ef j)) :
    (retry op rand opts).result =
      RetryOutcome.retryError
        (some (ef ((mergeOptions opts).maxAttempts.toNat - 1)))
        (mergeOptions opts).maxAttempts ∧
    (retry op rand opts).invocations =
      (mergeOptions opts).maxAttempts.toNat := by
  rw [retry_valid_eq op rand opts h1 h2]
  obtain ⟨f, hf⟩ : ∃ f, (mergeOptions opts).maxAttempts.toNat = f + 1 :=
    ⟨(mergeOptions opts).maxAttempts.toNat - 1, by omega⟩
  have hall := retryLoop_allFail op rand (mergeOptions opts).maxTimeout
    (mergeOptions opts).minTimeout (mergeOptions opts).multiplier ef f 0
    (mergeOptions opts).minTimeout none
    (fun j hj => by
      have hjm : (j : Int) < (mergeOptions opts).maxAttempts := by omega
      simpa using hfail j hjm)
  rw [runAttempts_of_value_none op rand (mergeOptions opts)
    (by rw [hf, hall])]
  rw [hf, hall]
  simp

/-- Witness for C2: with the default options (five attempts) and an
operation failing every time with its invocation index, the call fails
with a `RetryError` caused by the fifth failure (index 4) and count 5,
after five invocations. -/
theorem C2_exhaustion_witness :
    ((0 : ℚ) ≤ (mergeOptions none).maxTimeout ∧
     (mergeOptions none).minTimeout ≤ (mergeOptions none).maxTimeout ∧
     (1 : Int) ≤ (mergeOptions none).maxAttempts) ∧
    (retry (fun j => (Except.error j : Except Nat Nat)) (fun _ => 0)
        none).result = RetryOutcome.retryError (some 4) 5 ∧
    (retry (fun j => (Except.error j : Except Nat Nat)) (fun _ => 0)
        none).invocations = 5 :=
  ⟨⟨by decide, by decide, by decide⟩,
   C2_exhaustion (fun j => (Except.error j : Except Nat Nat)) (fun _ => 0)
     none (fun j => j) (by decide) (by decide) (by decide)
     (fun j _ => rfl)⟩

/-- Claim C3: whenever the effective options have `maxTimeout < 0` or
`minTimeout > maxTimeout`, `retry` fails with a precondition (assertion)
failure before the operation is ever invoked: zero invocations, and the
failure is not a `RetryError`. -/
theorem C3_invalid_config {E T : Type} (op : Nat → Except E T)
    (rand : Nat → ℚ) (opts : Option RetryOptions)
    (h : (mergeOptions opts).maxTimeout < 0 ∨
      (mergeOptions opts).maxTimeout < (mergeOptions opts).minTimeout) :
    (∃ msg, (retry op rand opts).result = RetryOutcome.assertionError msg) ∧
    (retry op rand opts).invocations = 0 ∧
    ∀ (c : Option E) (n : Int),
      (retry op rand opts).result ≠ RetryOutcome.retryError c n := by
  by_cases h0 : (mergeOptions opts).maxTimeout < 0
  · have hmsg : retry op rand opts =
        ⟨RetryOutcome.assertionError "maxTimeout is less than 0", 0, []⟩ := by
      simp only [retry]
      rw [if_pos h0]
    rw [hmsg]
    exact ⟨⟨_, rfl⟩, rfl, fun c n hcn => RetryOutcome.noConfusion hcn⟩
  · have hx : (mergeOptions opts).maxTimeout <
        (mergeOptions opts).minTimeout := h.resolve_left h0
    have hmsg : retry op rand opts =
        ⟨RetryOutcome.assertionError "minTimeout is greater than maxTimeout",
         0, []⟩ := by
      simp only [retry]
      rw [if_neg h0, if_pos hx]
    rw [hmsg]
    exact ⟨⟨_, rfl⟩, rfl, fun c n hcn => RetryOutcome.noConfusion hcn⟩

/-- Witness for C3: the spec's example `{minTimeout: 100, maxTimeout: 50}`
is rejected by the precondition check; the (always succeeding) operation
is never invoked and the failure is not a `RetryError`. -/
theorem C3_invalid_config_witness :
    ((mergeOptions (some ⟨none, some 50, none, some 100⟩)).maxTimeout < 0 ∨
     (mergeOptions (some ⟨none, some 50, none, some 100⟩)).maxTimeout <
       (mergeOptions (some ⟨none, some 50, none, some 100⟩)).minTimeout) ∧
    (∃ msg, (retry (fun _ => (Except.ok 0 : Except Nat Nat)) (fun _ => 0)
        (some ⟨none, some 50, none, some 100⟩)).result =
        RetryOutcome.assertionError msg) ∧
    (retry (fun _ => (Except.ok 0 : Except Nat Nat)) (fun _ => 0)
        (some ⟨none, some 50, none, some 100⟩)).invocations = 0 ∧
    ∀ (c : Option Nat) (n : Int),
      (retry (fun _ => (Except.ok 0 : Except Nat Nat)) (fun _ => 0)
          (some ⟨none, some 50, none, some 100⟩)).result ≠
        RetryOutcome.retryError c n :=
  ⟨by decide,
   C3_invalid_config (fun _ => (Except.ok 0 : Except Nat Nat)) (fun _ => 0)
     (some ⟨none, some 50, none, some 100⟩) (by decide)⟩

/-- Claim C4 (amended): the first attempt is made with no preceding delay,
and a call succeeding at attempt `k` performs exactly `k` inter-attempt
waits; but when all `maxAttempts` attempts fail, a wait is also performed
after the final failure, so the call performs `maxAttempts` waits in
total, the first of them being `minTimeout`. -/
theorem C4_wait_schedule {E T : Type} (op : Nat → Except E T)
    (rand : Nat → ℚ) (opts : Option RetryOptions) (ef : Nat → E)
    (h1 : 0 ≤ (mergeOptions opts).maxTimeout)
    (h2 : (mergeOptions opts).minTimeout ≤ (mergeOptions opts).maxTimeout)
    (hm : 1 ≤ (mergeOptions opts).maxAttempts) :
    (∀ (k : Nat) (v : T), (k : Int) < (mergeOptions opts).maxAttempts →
      (∀ j, j < k → op j = Except.error (ef j)) →
      op k = Except.ok v →
      (retry op rand opts).waits.length = k) ∧
    ((∀ j : Nat, (j : Int) < (mergeOptions opts).maxAttempts →
        op j = Except.error (ef j)) →
      (retry op rand opts).waits.length =
        (mergeOptions opts).maxAttempts.toNat ∧
      (retry op rand opts).waits.head? =
        some (mergeOptions opts).minTimeout) := by
  rw [retry_valid_eq op rand opts h1 h2]
  constructor
  · intro k v hk hfail hsucc
    have hk' : k < (mergeOptions opts).maxAttempts.toNat := by omega
    have h := retryLoop_succeedAt op rand (mergeOptions opts).maxTimeout
      (mergeOptions opts).minTimeout (mergeOptions opts).multiplier ef v k
      (mergeOptions opts).maxAttempts.toNat 0 (mergeOptions opts).minTimeout
      none hk' (fun j hj => by simpa using hfail j hj) (by simpa using hsucc)
    rw [runAttempts_waits]
    exact h.2.2
  · intro hfail
    obtain ⟨f, hf⟩ : ∃ f, (mergeOptions opts).maxAttempts.toNat = f + 1 :=
      ⟨(mergeOptions opts).maxAttempts.toNat - 1, by omega⟩
    have hall := retryLoop_allFail op rand (mergeOptions opts).maxTimeout
      (mergeOptions opts).minTimeout (mergeOptions opts).multiplier ef f 0
      (mergeOptions opts).minTimeout none
      (fun j hj => by
        have hjm : (j : Int) < (mergeOptions opts).maxAttempts := by omega
        simpa using hfail j hjm)
    rw [runAttempts_waits, hf, hall]
    simp

/-- Counterexample to C4 as stated: with `maxAttempts = 1` (other fields
defaulted, hence valid) and an always-failing operation, the single
attempt is followed by one wait of `minTimeout = 1000` before the
exhaustion error, so the call performs `1`, not `maxAttempts - 1 = 0`,
waits. -/
theorem C4_counterexample :
    (retry (fun _ => (Except.error 0 : Except Nat Nat)) (fun _ => 0)
        (some ⟨none, none, some 1, none⟩)).invocations = 1 ∧
    (retry (fun _ => (Except.error 0 : Except Nat Nat)) (fun _ => 0)
        (some ⟨none, none, some 1, none⟩)).waits = [(1000 : ℚ)] ∧
    ¬ ((retry (fun _ => (Except.error 0 : Except Nat Nat)) (fun _ => 0)
        (some ⟨none, none, some 1, none⟩)).waits.length = 1 - 1) := by
  decide

/-- Witness for C4 (amended), with the default options and an operation
that always fails with its invocation index. -/
theorem C4_wait_schedule_witness :
    ((0 : ℚ) ≤ (mergeOptions none).maxTimeout ∧
     (mergeOptions none).minTimeout ≤ (mergeOptions none).maxTimeout ∧
     (1 : Int) ≤ (mergeOptions none).maxAttempts) ∧
    ((∀ (k : Nat) (v : Nat), (k : Int) < (mergeOptions none).maxAttempts →
      (∀ j, j < k → (fun j => (Except.error j : Except Nat Nat)) j =
        Except.error ((fun j => j) j)) →
      (fun j => (Except.error j : Except Nat Nat)) k = Except.ok v →
      (retry (fun j => (Except.error j : Except Nat Nat)) (fun _ => 0)
        none).waits.length = k) ∧
    ((∀ j : Nat, (j : Int) < (mergeOptions none).maxAttempts →
        (fun j => (Except.error j : Except Nat Nat)) j =
          Except.error ((fun j => j) j)) →
      (retry (fun j => (Except.error j : Except Nat Nat)) (fun _ => 0)
        none).waits.length = (mergeOptions none).maxAttempts.toNat ∧
      (retry (fun j => (Except.error j : Except Nat Nat)) (fun _ => 0)
        none).waits.head? = some (mergeOptions none).minTimeout)) :=
  ⟨⟨by decide, by decide, by decide⟩,
   C4_wait_schedule (fun j => (Except.error j : Except Nat Nat))
     (fun _ => 0) none (fun j => j) (by decide) (by decide) (by decide)⟩

/-- Claim C5 (amended): for a valid config (`multiplier > 0`,
`0 ≤ minTimeout ≤ maxTimeout`) and a `Math.random()` value `r` in `[0,1)`,
the backoff recomputed after the failure of attempt `i` equals
`r * min(maxTimeout, minTimeout * multiplier ^ i)`; it is nonnegative, at
most that bound, strictly below it whenever the bound is positive, and
never exceeds `maxTimeout`. -/
theorem C5_backoff_range (cap base mult r : ℚ) (i : Nat)
    (hmult : 0 < mult) (hbase : 0 ≤ base) (hbc : base ≤ cap)
    (hr0 : 0 ≤ r) (hr1 : r < 1) :
    _exponentialBackoffWithJitter cap base i mult r =
      r * min cap (base * mult ^ i) ∧
    0 ≤ _exponentialBackoffWithJitter cap base i mult r ∧
    _exponentialBackoffWithJitter cap base i mult r ≤
      min cap (base * mult ^ i) ∧
    (0 < min cap (base * mult ^ i) →
      _exponentialBackoffWithJitter cap base i mult r <
        min cap (base * mult ^ i)) ∧
    _exponentialBackoffWithJitter cap base i mult r ≤ cap := by
  have hM : 0 ≤ min cap (base * mult ^ i) :=
    le_min (hbase.trans hbc) (mul_nonneg hbase (pow_nonneg hmult.le i))
  exact ⟨rfl, mul_nonneg hr0 hM, mul_le_of_le_one_left hM hr1.le,
    fun hpos => mul_lt_of_lt_one_left hpos hr1,
    (mul_le_of_le_one_left hM hr1.le).trans (min_le_left _ _)⟩

/-- Counterexample to C5 as stated: `minTimeout = 0` is allowed by the
claim's own validity condition (`0 ≤ minTimeout ≤ maxTimeout`,
`multiplier > 0`), but then the bound `min(maxTimeout, minTimeout *
multiplier ^ i)` is `0`, the computed backoff is `0`, and the half-open
interval `[0, 0)` is empty: the backoff does not lie strictly below the
bound. -/
theorem C5_counterexample :
    (0 : ℚ) < 2 ∧ (0 : ℚ) ≤ 0 ∧ (0 : ℚ) ≤ 5 ∧
    (0 : ℚ) ≤ 1/2 ∧ (1/2 : ℚ) < 1 ∧
    ¬ (_exponentialBackoffWithJitter 5 0 0 2 (1/2) <
        min 5 ((0 : ℚ) * 2 ^ 0)) := by
  refine ⟨by norm_num, le_refl 0, by norm_num, by norm_num, by norm_num, ?_⟩
  norm_num [_exponentialBackoffWithJitter, min_def]

/-- Witness for C5 (amended) at `maxTimeout = 1000`, `minTimeout = 10`,
`multiplier = 2`, attempt index `3`, `r = 1/2`. -/
theorem C5_backoff_range_witness :
    ((0 : ℚ) < 2 ∧ (0 : ℚ) ≤ 10 ∧ (10 : ℚ) ≤ 1000 ∧
     (0 : ℚ) ≤ 1/2 ∧ (1/2 : ℚ) < 1) ∧
    _exponentialBackoffWithJitter 1000 10 3 2 (1/2) =
      1/2 * min 1000 (10 * 2 ^ 3) ∧
    0 ≤ _exponentialBackoffWithJitter 1000 10 3 2 (1/2) ∧
    _exponentialBackoffWithJitter 1000 10 3 2 (1/2) ≤
      min 1000 (10 * 2 ^ 3) ∧
    (0 < min (1000 : ℚ) (10 * 2 ^ 3) →
      _exponentialBackoffWithJitter 1000 10 3 2 (1/2) <
        min 1000 (10 * 2 ^ 3)) ∧
    _exponentialBackoffWithJitter 1000 10 3 2 (1/2) ≤ 1000 :=
  ⟨⟨by norm_num, by norm_num, by norm_num, by norm_num, by norm_num⟩,
   C5_backoff_range 1000 10 2 (1/2) 3 (by norm_num) (by norm_num)
     (by norm_num) (by norm_num) (by norm_num)⟩

/-- Claim C6: for every valid config, `retry` invokes the operation at
least once and at most `maxAttempts` times, whatever the pattern of
successes and failures. -/
theorem C6_invocation_bounds {E T : Type} (op : Nat → Except E T)
    (rand : Nat → ℚ) (opts : Option RetryOptions)
    (h1 : 0 ≤ (mergeOptions opts).maxTimeout)
    (h2 : (mergeOptions opts).minTimeout ≤ (mergeOptions opts).maxTimeout)
    (hm : 1 ≤ (mergeOptions opts).maxAttempts) :
    1 ≤ (retry op rand opts).invocations ∧
    ((retry op rand opts).invocations : Int) ≤
      (mergeOptions opts).maxAttempts := by
  rw [retry_valid_eq op rand opts h1 h2, runAttempts_invocations]
  obtain ⟨f, hf⟩ : ∃ f, (mergeOptions opts).maxAttempts.toNat = f + 1 :=
    ⟨(mergeOptions opts).maxAttempts.toNat - 1, by omega⟩
  have hle := retryLoop_invocations_le op rand (mergeOptions opts).maxTimeout
    (mergeOptions opts).minTimeout (mergeOptions opts).multiplier
    (mergeOptions opts).maxAttempts.toNat 0 (mergeOptions opts).minTimeout
    none
  have hpos : 1 ≤ (retryLoop op rand (mergeOptions opts).maxTimeout
      (mergeOptions opts).minTimeout (mergeOptions opts).multiplier
      (mergeOptions opts).maxAttempts.toNat 0 (mergeOptions opts).minTimeout
      none).invocations := by
    rw [hf]
    exact retryLoop_invocations_pos op rand _ _ _ f 0 _ none
  exact ⟨hpos, by omega⟩

/-- Witness for C6: an operation alternating failure and success, under
the default options, is invoked between 1 and 5 times. -/
theorem C6_invocation_bounds_witness :
    ((0 : ℚ) ≤ (mergeOptions none).maxTimeout ∧
     (mergeOptions none).minTimeout ≤ (mergeOptions none).maxTimeout ∧
     (1 : Int) ≤ (mergeOptions none).maxAttempts) ∧
    1 ≤ (retry (fun j => if j % 2 = 0 then (Except.error j : Except Nat Nat)
      else Except.ok j) (fun _ => 0) none).invocations ∧
    ((retry (fun j => if j % 2 = 0 then (Except.error j : Except Nat Nat)
      else Except.ok j) (fun _ => 0) none).invocations : Int) ≤
      (mergeOptions none).maxAttempts :=
  ⟨⟨by decide, by decide, by decide⟩,
   C6_invocation_bounds
     (fun j => if j % 2 = 0 then (Except.error j : Except Nat Nat)
       else Except.ok j)
     (fun _ => 0) none (by decide) (by decide) (by decide)⟩

/-- Claim C7 (amended): for a config with `minTimeout = maxTimeout = c`
(`0 ≤ c`) and `multiplier ≥ 1`, every computed backoff collapses to
`random() * c` regardless of the attempt index, and such a config is
accepted by the precondition checks, not rejected. -/
theorem C7_min_eq_max (E T : Type) (mult c : ℚ) (hmult : 1 ≤ mult)
    (hc : 0 ≤ c) :
    (∀ (i : Nat) (r : ℚ),
      _exponentialBackoffWithJitter c c i mult r = r * c) ∧
    (∀ (op : Nat → Except E T) (rand : Nat → ℚ) (m : Option Int),
      (retry op rand
        (some ⟨some mult, some c, m, some c⟩)).result.isConfigError
        = false) := by
  constructor
  · intro i r
    have hpow : (1 : ℚ) ≤ mult ^ i := one_le_pow₀ hmult
    have hmin : min c (c * mult ^ i) = c :=
      min_eq_left (le_mul_of_one_le_right hc hpow)
    simp [_exponentialBackoffWithJitter, hmin]
  · intro op rand m
    have hmerge : mergeOptions (some ⟨some mult, some c, m, some c⟩) =
        ⟨mult, c, m.getD 5, c⟩ := rfl
    rw [retry_valid_eq op rand (some ⟨some mult, some c, m, some c⟩)
      (by rw [hmerge]; exact hc) (by rw [hmerge])]
    exact runAttempts_not_configError op rand _

/-- Counterexample to C7 as stated: `multiplier = 1/2` is a valid config
value (the claim requires only `multiplier > 0`), and with
`minTimeout = maxTimeout = 1000`, attempt index `1` and `random() = 1/2`
the computed backoff is `1/2 * min(1000, 1000 * (1/2)^1) = 250`, not
`random() * maxTimeout = 500`: the cap is not independent of the attempt
index. -/
theorem C7_counterexample :
    (0 : ℚ) < 1/2 ∧ (0 : ℚ) ≤ 1000 ∧ ((1000 : ℚ) ≤ 1000) ∧
    ¬ (_exponentialBackoffWithJitter 1000 1000 1 (1/2) (1/2) =
        (1/2 : ℚ) * 1000) := by
  refine ⟨by norm_num, by norm_num, le_refl 1000, ?_⟩
  norm_num [_exponentialBackoffWithJitter, min_def]

/-- Witness for C7 (amended) at `multiplier = 2`, `c = 500`. -/
theorem C7_min_eq_max_witness :
    ((1 : ℚ) ≤ 2 ∧ (0 : ℚ) ≤ 500) ∧
    (∀ (i : Nat) (r : ℚ),
      _exponentialBackoffWithJitter 500 500 i 2 r = r * 500) ∧
    (∀ (op : Nat → Except Nat Nat) (rand : Nat → ℚ) (m : Option Int),
      (retry op rand
        (some ⟨some 2, some 500, m, some 500⟩)).result.isConfigError
        = false) :=
  ⟨⟨by norm_num, by norm_num⟩,
   C7_min_eq_max Nat Nat 2 500 (by norm_num) (by norm_num)⟩

/-- Claim C8: every omitted config field takes its documented default
(`multiplier = 2`, `maxTimeout = 60000`, `maxAttempts = 5`,
`minTimeout = 1000`), and a call with no config at all behaves exactly as
one with all four defaults passed. -/
theorem C8_defaults {E T : Type} (o : RetryOptions) (op : Nat → Except E T)
    (rand : Nat → ℚ) :
    mergeOptions (some o) =
      ⟨o.multiplier.getD 2, o.maxTimeout.getD 60000, o.maxAttempts.getD 5,
       o.minTimeout.getD 1000⟩ ∧
    mergeOptions none = defaultRetryOptions ∧
    defaultRetryOptions = ⟨2, 60000, 5, 1000⟩ ∧
    retry op rand none =
      retry op rand (some ⟨some 2, some 60000, some 5, some 1000⟩) :=
  ⟨rfl, rfl, rfl, rfl⟩

/-- Claim C9: `maxAttempts` is never validated.  With any non-positive
`maxAttempts` (and valid timeouts) the loop body never runs: the operation
is invoked zero times and the call fails with a `RetryError` whose cause
is absent (`none`, the never-assigned `error` variable) and whose count is
the given `maxAttempts` — not with a precondition error. -/
theorem C9_nonpositive_maxAttempts {E T : Type} (op : Nat → Except E T)
    (rand : Nat → ℚ) (opts : Option RetryOptions)
    (h1 : 0 ≤ (mergeOptions opts).maxTimeout)
    (h2 : (mergeOptions opts).minTimeout ≤ (mergeOptions opts).maxTimeout)
    (hm : (mergeOptions opts).maxAttempts ≤ 0) :
    (retry op rand opts).invocations = 0 ∧
    (retry op rand opts).result =
      RetryOutcome.retryError none (mergeOptions opts).maxAttempts := by
  rw [retry_valid_eq op rand opts h1 h2]
  have ht : (mergeOptions opts).maxAttempts.toNat = 0 := by omega
  rw [runAttempts_of_value_none op rand (mergeOptions opts)
    (by rw [ht, retryLoop_zero])]
  rw [ht, retryLoop_zero]
  exact ⟨rfl, rfl⟩

/-- Witness for C9: `maxAttempts = 0` with defaulted timeouts gives zero
invocations of an always-succeeding operation and
`RetryError(undefined, 0)`. -/
theorem C9_nonpositive_maxAttempts_witness :
    ((0 : ℚ) ≤ (mergeOptions (some ⟨none, none, some 0, none⟩)).maxTimeout ∧
     (mergeOptions (some ⟨none, none, some 0, none⟩)).minTimeout ≤
       (mergeOptions (some ⟨none, none, some 0, none⟩)).maxTimeout ∧
     (mergeOptions (some ⟨none, none, some 0, none⟩)).maxAttempts ≤ 0) ∧
    (retry (fun _ => (Except.ok 1 : Except Nat Nat)) (fun _ => 0)
        (some ⟨none, none, some 0, none⟩)).invocations = 0 ∧
    (retry (fun _ => (Except.ok 1 : Except Nat Nat)) (fun _ => 0)
        (some ⟨none, none, some 0, none⟩)).result =
      RetryOutcome.retryError none 0 :=
  ⟨⟨by decide, by decide, by decide⟩,
   C9_nonpositive_maxAttempts (fun _ => (Except.ok 1 : Except Nat Nat))
     (fun _ => 0) (some ⟨none, none, some 0, none⟩) (by decide) (by decide)
     (by decide)⟩
